import Mathlib

/-!
Shallow embedding of `Assignment2.py`, a pandas script that reshapes a
World-Bank-style wide-format climate CSV and renders bar charts, line charts
and correlation heatmaps.

A pandas `DataFrame` is modelled as a list of column labels together with a
list of rows; a cell is a string, a number, or a missing value (`NaN`).
Numeric cells carry integers (the claims under verification never depend on
fractional cell values); the Pearson correlation of `correlations` is
computed over the reals on the numeric content of the table.

Column slicing with negative Python indices (`iloc[:, -8:-2]`,
`iloc[:, -6:]`) is modelled with the clamping semantics of Python slices.
-/

set_option autoImplicit false

namespace Assignment2

/-- A cell of a pandas DataFrame: a string, a number, or a missing value
(pandas `NaN`). -/
inductive Cell where
  | str : String → Cell
  | num : Int → Cell
  | na  : Cell
deriving DecidableEq

/-- A pandas DataFrame: column labels (pandas labels are arbitrary objects,
hence cells) and rows of cells. -/
structure DataFrame where
  cols : List Cell
  rows : List (List Cell)
deriving DecidableEq

/-- Reading a cell of a row at a column position; out-of-range reads yield
`NaN` (pandas frames are rectangular, so in-range positions are the ones that
matter). -/
def cellAt (r : List Cell) (k : Nat) : Cell := r.getD k Cell.na

/-- The values of column `k`, top to bottom. -/
def colValues (df : DataFrame) (k : Nat) : List Cell :=
  df.rows.map (fun r => cellAt r k)

/-- Position of the column labelled `label` (pandas label lookup; labels are
unique in this data). -/
def colIdx (df : DataFrame) (label : String) : Nat :=
  df.cols.findIdx (fun c => decide (c = Cell.str label))

/-- Row selection by a boolean mask, `df[mask]`. -/
def filterRows (df : DataFrame) (p : List Cell → Bool) : DataFrame :=
  { cols := df.cols, rows := df.rows.filter p }

/-- Column selection by a list of positions (the common core of `iloc` column
slicing and of `dropna(axis=1)`). -/
def selectCols (df : DataFrame) (ks : List Nat) : DataFrame :=
  { cols := ks.map (fun k => df.cols.getD k Cell.na),
    rows := df.rows.map (fun r => ks.map (fun k => cellAt r k)) }

/-- Whether column `k` contains a missing value in some row. -/
def colHasNa (df : DataFrame) (k : Nat) : Bool :=
  df.rows.any (fun r => decide (cellAt r k = Cell.na))

/-- The column positions kept by `dropna(axis=1)`: those without any missing
value. -/
def keptIdxs (df : DataFrame) : List Nat :=
  (List.range df.cols.length).filter (fun k => !(colHasNa df k))

/-- Model of `df.dropna(axis=1)`: drop every column containing a missing
value. -/
def dropna_cols (df : DataFrame) : DataFrame :=
  selectCols df (keptIdxs df)

/-- Normalisation of a Python slice endpoint for a sequence of length `n`:
negative endpoints count from the end and clamp at `0`, nonnegative ones
clamp at `n`. -/
def pyEndpoint (n : Nat) (i : Int) : Nat :=
  if i < 0 then ((n : Int) + i).toNat else min i.toNat n

/-- The column positions selected by the Python slice `a : b` (with `b = none`
meaning an omitted right endpoint) over `n` columns. -/
def sliceIdxs (n : Nat) (a : Int) (b : Option Int) : List Nat :=
  List.range' (pyEndpoint n a) ((match b with
    | none => n
    | some j => pyEndpoint n j) - pyEndpoint n a)

/-- Model of `df.iloc[:, a:b]`. -/
def ilocCols (df : DataFrame) (a : Int) (b : Option Int) : DataFrame :=
  selectCols df (sliceIdxs df.cols.length a b)

/-- Model of `pd.concat([t.iloc[:, 0], t.iloc[:, a:b]], axis=1)` as used for
`df_new` in `Statistics` and `Statistics_line`: column 0 followed by the
sliced window. -/
def concatWithCol0 (t : DataFrame) (a : Int) (b : Option Int) : DataFrame :=
  selectCols t (0 :: sliceIdxs t.cols.length a b)

/-- Columns whose label is not in `labels` (the effect of
`drop(labels, axis=1)` and, on the data part, of `set_index([label])`). -/
def dropLabeledCols (d : DataFrame) (labels : List String) : DataFrame :=
  selectCols d ((List.range d.cols.length).filter
    (fun k => !(labels.any (fun s => decide (d.cols.getD k Cell.na = Cell.str s)))))

/-! ### `read_data` (lines 17-33)

`df.T.reset_index()` turns every original column into a row whose head is the
original column label; the former row index `0..m-1` becomes the new column
labels, preceded by the label `index`. -/

/-- Model of `df.T.reset_index()` (line 20). -/
def dfT_reset (df : DataFrame) : DataFrame :=
  { cols := Cell.str "index" :: (List.range df.rows.length).map (fun j => Cell.num j),
    rows := (List.range df.cols.length).map
      (fun k => df.cols.getD k Cell.na :: colValues df k) }

/-- Model of `df_transpose.columns = df_transpose.iloc[0]` (line 22): promote
the first row to the column header (the row itself stays in the data until it
is dropped on the next line). -/
def setColsFirstRow (d : DataFrame) : DataFrame :=
  { cols := d.rows.headD [], rows := d.rows }

/-- Model of `df_transpose.drop(index=[0, 1, 2, 3])` (line 24): remove the
four leading metadata rows. Pandas drops by index label and raises
`KeyError` when a frame has fewer than four row labels; this total
positional model is relied on only where the transposed frame has at least
four rows (one per column of a table with the four metadata columns), where
label-drop on the fresh `RangeIndex` and positional drop coincide. -/
def dropRows4 (d : DataFrame) : DataFrame :=
  { cols := d.cols, rows := d.rows.drop 4 }

/-- Model of `rename(columns={'Country Name': 'Year'})` (lines 26-27). -/
def renameCountryToYear (d : DataFrame) : DataFrame :=
  { cols := d.cols.map
      (fun c => if c = Cell.str "Country Name" then Cell.str "Year" else c),
    rows := d.rows }

/-- The cleaned, transposed table produced by `read_data` (lines 20-31):
transpose, promote the first row to the header, drop the four metadata rows,
rename `Country Name` to `Year`, drop columns with missing values. -/
def read_data_clean (df : DataFrame) : DataFrame :=
  dropna_cols (renameCountryToYear (dropRows4 (setColsFirstRow (dfT_reset df))))

/-- Model of `read_data` (line 33): it returns the raw table unchanged
together with the cleaned table. -/
def read_data (df : DataFrame) : DataFrame × DataFrame :=
  (df, read_data_clean df)

/-! ### Filtering and windowing (`Statistics`, lines 49-63, and
`Statistics_line`, lines 137-143) -/

/-- The country mask of line 50: `df["Country Name"].isin(country_list)`,
evaluated on a row. -/
def countryMask (df : DataFrame) (country_list : List String) (r : List Cell) : Bool :=
  country_list.any (fun c => decide (cellAt r (colIdx df "Country Name") = Cell.str c))

/-- The indicator mask of line 51: `df["Indicator Name"].isin(indicator_list)`,
evaluated on a row. -/
def indicatorMask (df : DataFrame) (indicator_list : List String) (r : List Cell) : Bool :=
  indicator_list.any (fun s => decide (cellAt r (colIdx df "Indicator Name") = Cell.str s))

/-- Model of `df_sub` (lines 50-51, identically lines 93-94 and 138-139):
rows whose country is in `country_list` and whose indicator is in
`indicator_list`. -/
def df_sub (df : DataFrame) (country_list indicator_list : List String) : DataFrame :=
  filterRows df (fun r => countryMask df country_list r && indicatorMask df indicator_list r)

/-- Model of `df_pop` (line 52, identically line 140): the rows of `df_sub`
whose indicator equals `indicator_list[index]`. -/
def df_pop (df : DataFrame) (country_list indicator_list : List String) (index : Nat) :
    DataFrame :=
  filterRows (df_sub df country_list indicator_list)
    (fun r => decide (cellAt r (colIdx (df_sub df country_list indicator_list) "Indicator Name")
      = Cell.str (indicator_list.getD index "")))

/-- Model of `df_pop1 = df_pop.dropna(axis=1)` (line 57, identically
line 142). -/
def df_pop1 (df : DataFrame) (country_list indicator_list : List String) (index : Nat) :
    DataFrame :=
  dropna_cols (df_pop df country_list indicator_list index)

/-- The year window that `Statistics` keeps for the bar chart (lines 60-63):
the last 6 columns when `index == 1`, otherwise the columns from position
`-8` to `-2`. -/
def barWindow (df : DataFrame) (country_list indicator_list : List String) (index : Nat) :
    DataFrame :=
  if index = 1 then ilocCols (df_pop1 df country_list indicator_list index) (-6) none
  else ilocCols (df_pop1 df country_list indicator_list index) (-8) (some (-2))

/-- Model of `df_new` in `Statistics` (lines 60-63): column 0 (`Country
Name`) concatenated with the bar window. -/
def df_newBar (df : DataFrame) (country_list indicator_list : List String) (index : Nat) :
    DataFrame :=
  if index = 1 then concatWithCol0 (df_pop1 df country_list indicator_list index) (-6) none
  else concatWithCol0 (df_pop1 df country_list indicator_list index) (-8) (some (-2))

/-- The year window that `Statistics_line` keeps for the line chart
(line 143): always the columns from position `-8` to `-2`, whatever the
index. -/
def lineWindow (df : DataFrame) (country_list indicator_list : List String) (index : Nat) :
    DataFrame :=
  ilocCols (df_pop1 df country_list indicator_list index) (-8) (some (-2))

/-- Model of `df_new` in `Statistics_line` (line 143). -/
def df_newLine (df : DataFrame) (country_list indicator_list : List String) (index : Nat) :
    DataFrame :=
  concatWithCol0 (df_pop1 df country_list indicator_list index) (-8) (some (-2))

/-! ### `correlations` (lines 93-106) -/

/-- Model of `df_temp` after lines 98-104: the rows of `df_sub` for the one
country `country_list[index]`, with missing-value columns dropped, the
`Indicator Name` column moved to the index by `set_index`, and the
`Country Name`, `Country Code` and `Indicator Code` columns dropped. -/
def df_temp (df : DataFrame) (country_list indicator_list : List String) (index : Nat) :
    DataFrame :=
  dropLabeledCols
    (dropLabeledCols
      (dropna_cols
        (filterRows (df_sub df country_list indicator_list)
          (fun r => decide (cellAt r (colIdx (df_sub df country_list indicator_list)
            "Country Name") = Cell.str (country_list.getD index "")))))
      ["Indicator Name"])
    ["Country Name", "Country Code", "Indicator Code"]

/-- The real value of a numeric cell (the year columns reaching `corr` are
numeric and, after `dropna`, free of missing values). -/
noncomputable def cellVal : Cell → ℝ
  | Cell.num n => (n : ℝ)
  | _ => 0

/-- The series of indicator `i` in `df_temp`: its row, read as reals. After
`df_temp.T` these are the columns whose pairwise correlation line 106
computes, with years as observations. -/
noncomputable def rowSeries (d : DataFrame) (i : Nat) : List ℝ :=
  (d.rows.getD i []).map cellVal

/-- Arithmetic mean of a list of reals. -/
noncomputable def mean (l : List ℝ) : ℝ := l.sum / l.length

/-- Centered dot product of two series, the common numerator/denominator
core of Pearson correlation (the `1/(n-1)` normalisation cancels in the
ratio). -/
noncomputable def cdot (xs ys : List ℝ) : ℝ :=
  ((xs.zip ys).map (fun p => (p.1 - mean xs) * (p.2 - mean ys))).sum

/-- Pearson correlation coefficient of two series, the entrywise semantics
of `DataFrame.corr()`. A zero-variance series makes the denominator zero;
pandas then reports `NaN`, modelled here by the degenerate division (which
Lean evaluates to `0`, in particular not `1`). -/
noncomputable def pearson (xs ys : List ℝ) : ℝ :=
  cdot xs ys / (Real.sqrt (cdot xs xs) * Real.sqrt (cdot ys ys))

/-- Entry `(i, j)` of `corr_matrix = df_temp.T.corr()` (line 106): the
Pearson correlation of the series of indicators `i` and `j` over the
surviving year columns. -/
noncomputable def corr_matrix (df : DataFrame) (country_list indicator_list : List String)
    (index : Nat) (i j : Nat) : ℝ :=
  pearson (rowSeries (df_temp df country_list indicator_list index) i)
    (rowSeries (df_temp df country_list indicator_list index) j)

/-- Model of the `Statistics` call as seen by its caller (lines 36-74): the
caller's `df` after the call, with the table the bar chart renders.
`df[mask]` selection copies, so the in-place `set_index` on `df_new`
(line 64) acts on the filtered copy only and `df` is returned unchanged. -/
def StatisticsRun (df : DataFrame) (country_list indicator_list : List String) (index : Nat) :
    DataFrame × DataFrame :=
  (df, dropLabeledCols (df_newBar df country_list indicator_list index) ["Country Name"])

/-- Model of the `Statistics_line` call as seen by its caller
(lines 123-161), as for `StatisticsRun`. -/
def Statistics_lineRun (df : DataFrame) (country_list indicator_list : List String)
    (index : Nat) : DataFrame × DataFrame :=
  (df, dropLabeledCols (df_newLine df country_list indicator_list index) ["Country Name"])

/-- Model of the `correlations` call as seen by its caller (lines 77-120):
the caller's `df` after the call, with the table whose transposed correlation
matrix the heatmap renders. The in-place `set_index`/`drop` of lines 101-104
act on the filtered copy `df_temp` only. -/
def correlationsRun (df : DataFrame) (country_list indicator_list : List String)
    (index : Nat) : DataFrame × DataFrame :=
  (df, df_temp df country_list indicator_list index)

/-! ### Shared lemmas -/

/-- Mapping `getD` over a block of consecutive positions reads off the
corresponding slice of the list. -/
theorem getD_range'_map {α : Type} (l : List α) (d : α) (lo k : Nat)
    (h : lo + k ≤ l.length) :
    (List.range' lo k).map (fun i => l.getD i d) = (l.drop lo).take k := by
  apply List.ext_getElem
  · simp; omega
  · intro i h1 h2
    simp only [List.getElem_map, List.getElem_range', Nat.one_mul]
    rw [List.getElem_take, List.getElem_drop, List.getD_eq_getElem]

/-- Membership in the kept-column positions of `dropna(axis=1)`: in range and
missing in no row. -/
theorem mem_keptIdxs (df : DataFrame) (k : Nat) :
    k ∈ keptIdxs df ↔ k < df.cols.length ∧ ∀ r ∈ df.rows, cellAt r k ≠ Cell.na := by
  simp [keptIdxs, colHasNa, List.mem_filter, List.mem_range, List.any_eq_true]

/-- Every cell of every row surviving `dropna(axis=1)` is a non-missing
value. -/
theorem dropna_cols_no_na (df : DataFrame) :
    ∀ r ∈ (dropna_cols df).rows, ∀ c ∈ r, c ≠ Cell.na := by
  intro r hr c hc
  simp only [dropna_cols, selectCols, List.mem_map] at hr
  obtain ⟨r0, hr0, rfl⟩ := hr
  simp only [List.mem_map] at hc
  obtain ⟨k, hk, rfl⟩ := hc
  exact ((mem_keptIdxs df k).mp hk).2 r0 hr0

/-- Each row of `dropna_cols df` has exactly one cell per kept column. -/
theorem dropna_cols_row_length (df : DataFrame) :
    ∀ r ∈ (dropna_cols df).rows, r.length = (dropna_cols df).cols.length := by
  intro r hr
  simp only [dropna_cols, selectCols, List.mem_map] at hr ⊢
  obtain ⟨r0, _, rfl⟩ := hr
  simp

/-- A column of an already-cleaned table never still contains a missing
value. -/
theorem colHasNa_dropna_cols (df : DataFrame) (k : Nat)
    (h : k < (dropna_cols df).cols.length) : colHasNa (dropna_cols df) k = false := by
  rw [colHasNa, List.any_eq_false]
  intro r hr
  simp only [decide_eq_true_eq]
  have hlen := dropna_cols_row_length df r hr
  have hk : k < r.length := by omega
  have hmem : cellAt r k ∈ r := by
    rw [cellAt, List.getD_eq_getElem _ _ hk]; exact List.getElem_mem hk
  exact dropna_cols_no_na df r hr _ hmem

/-- On an already-cleaned table, `dropna(axis=1)` keeps every column
position. -/
theorem keptIdxs_dropna_cols (df : DataFrame) :
    keptIdxs (dropna_cols df) = List.range (dropna_cols df).cols.length := by
  rw [keptIdxs]
  apply List.filter_eq_self.mpr
  intro k hk
  simp [colHasNa_dropna_cols df k (List.mem_range.mp hk)]

/-- Selecting every column position in order is the identity on tables whose
rows all have one cell per column. -/
theorem selectCols_range (t : DataFrame)
    (hrows : ∀ r ∈ t.rows, r.length = t.cols.length) :
    selectCols t (List.range t.cols.length) = t := by
  rw [selectCols]
  obtain ⟨cols, rows⟩ := t
  simp only [DataFrame.mk.injEq]
  constructor
  · rw [List.range_eq_range', getD_range'_map cols Cell.na 0 cols.length (by simp)]
    simp
  · conv_rhs => rw [← List.map_id rows]
    apply List.map_congr_left
    intro r hr
    have hlen : cols.length = r.length := (hrows r hr).symm
    simp only [cellAt, hlen, List.range_eq_range', id]
    rw [getD_range'_map r Cell.na 0 r.length (by simp)]
    simp

/-- Dropping missing-value columns is idempotent. -/
theorem dropna_cols_idem (df : DataFrame) :
    dropna_cols (dropna_cols df) = dropna_cols df := by
  conv_lhs => rw [dropna_cols, keptIdxs_dropna_cols]
  exact selectCols_range _ (dropna_cols_row_length df)

/-- Normalised left endpoint of the trailing slice `-6:`. -/
theorem pyEndpoint_m6 (n : Nat) : pyEndpoint n (-6) = n - 6 := by
  rw [pyEndpoint, if_pos (by norm_num : (-6 : Int) < 0)]
  omega

/-- Normalised left endpoint of the slice `-8:-2`. -/
theorem pyEndpoint_m8 (n : Nat) : pyEndpoint n (-8) = n - 8 := by
  rw [pyEndpoint, if_pos (by norm_num : (-8 : Int) < 0)]
  omega

/-- Normalised right endpoint of the slice `-8:-2`. -/
theorem pyEndpoint_m2 (n : Nat) : pyEndpoint n (-2) = n - 2 := by
  rw [pyEndpoint, if_pos (by norm_num : (-2 : Int) < 0)]
  omega

/-- With at least 6 columns, `iloc[:, -6:]` keeps exactly the last 6
columns. -/
theorem ilocCols_m6_cols (t : DataFrame) (h : 6 ≤ t.cols.length) :
    (ilocCols t (-6) none).cols = t.cols.drop (t.cols.length - 6) := by
  rw [ilocCols, selectCols, sliceIdxs, pyEndpoint_m6]
  rw [getD_range'_map t.cols Cell.na _ _ (by omega)]
  exact List.take_of_length_le (by simp)

/-- With fewer than 6 columns, `iloc[:, -6:]` clamps and keeps the whole
table. -/
theorem ilocCols_m6_cols_small (t : DataFrame) (h : t.cols.length < 6) :
    (ilocCols t (-6) none).cols = t.cols := by
  rw [ilocCols, selectCols, sliceIdxs, pyEndpoint_m6]
  have h0 : t.cols.length - 6 = 0 := by omega
  rw [h0, getD_range'_map t.cols Cell.na _ _ (by omega)]
  simp

/-- With at least 8 columns, `iloc[:, -8:-2]` keeps exactly the 6 columns
from position `-8` to `-2`. -/
theorem ilocCols_m8m2_cols (t : DataFrame) (h : 8 ≤ t.cols.length) :
    (ilocCols t (-8) (some (-2))).cols = (t.cols.drop (t.cols.length - 8)).take 6 := by
  rw [ilocCols, selectCols, sliceIdxs, pyEndpoint_m8, pyEndpoint_m2]
  have h6 : t.cols.length - 2 - (t.cols.length - 8) = 6 := by omega
  rw [h6, getD_range'_map t.cols Cell.na _ _ (by omega)]

/-- With fewer than 8 columns, `iloc[:, -8:-2]` clamps: its left endpoint
hits position 0 and it keeps all but the last two columns. -/
theorem ilocCols_m8m2_cols_small (t : DataFrame) (h : t.cols.length < 8) :
    (ilocCols t (-8) (some (-2))).cols = t.cols.take (t.cols.length - 2) := by
  rw [ilocCols, selectCols, sliceIdxs, pyEndpoint_m8, pyEndpoint_m2]
  have h0 : t.cols.length - 8 = 0 := by omega
  rw [h0, getD_range'_map t.cols Cell.na _ _ (by omega)]
  simp

/-- Zipping a list with itself pairs each element with itself. -/
theorem zip_self_map {α : Type} (l : List α) : l.zip l = l.map (fun a => (a, a)) := by
  induction l with
  | nil => rfl
  | cons a l ih => simp [ih]

/-- The centered dot product is symmetric. -/
theorem cdot_comm (xs ys : List ℝ) : cdot xs ys = cdot ys xs := by
  rw [cdot, cdot, ← List.zip_swap xs ys, List.map_map]
  congr 1
  apply List.map_congr_left
  intro p _
  simp [mul_comm]

/-- The centered dot product of a series with itself is a sum of squares. -/
theorem cdot_self_nonneg (xs : List ℝ) : 0 ≤ cdot xs xs := by
  rw [cdot, zip_self_map, List.map_map]
  apply List.sum_nonneg
  intro x hx
  simp only [List.mem_map, Function.comp] at hx
  obtain ⟨a, _, rfl⟩ := hx
  exact mul_self_nonneg _

/-- Pearson correlation is symmetric in its two series. -/
theorem pearson_comm (xs ys : List ℝ) : pearson xs ys = pearson ys xs := by
  rw [pearson, pearson, cdot_comm xs ys, mul_comm]

/-- Pearson correlation of a series with itself is 1 whenever the series has
nonzero variance. -/
theorem pearson_self (xs : List ℝ) (h : cdot xs xs ≠ 0) : pearson xs xs = 1 := by
  rw [pearson, Real.mul_self_sqrt (cdot_self_nonneg xs), div_self h]

/-! ### Concrete sample tables (used by witnesses and counterexamples) -/

/-- A small raw table: the four metadata columns and two year columns, with
two complete rows. -/
def smallRaw : DataFrame :=
  { cols := [Cell.str "Country Name", Cell.str "Country Code", Cell.str "Indicator Name",
      Cell.str "Indicator Code", Cell.str "2000", Cell.str "2001"],
    rows := [
      [Cell.str "India", Cell.str "IND", Cell.str "CO2 emissions (kt)",
       Cell.str "EN.ATM.CO2E.KT", Cell.num 1, Cell.num 2],
      [Cell.str "Nigeria", Cell.str "NGA", Cell.str "CO2 emissions (kt)",
       Cell.str "EN.ATM.CO2E.KT", Cell.num 3, Cell.num 4]] }

/-- A raw table like `smallRaw` but with three complete rows, so that its
cleaned form has four columns and a second cleaning pass stays on pandas'
non-error path (the re-transposed frame has four row labels, so
`drop(index=[0, 1, 2, 3])` succeeds). -/
def mediumRaw : DataFrame :=
  { cols := [Cell.str "Country Name", Cell.str "Country Code", Cell.str "Indicator Name",
      Cell.str "Indicator Code", Cell.str "2000", Cell.str "2001"],
    rows := [
      [Cell.str "India", Cell.str "IND", Cell.str "CO2 emissions (kt)",
       Cell.str "EN.ATM.CO2E.KT", Cell.num 1, Cell.num 2],
      [Cell.str "Nigeria", Cell.str "NGA", Cell.str "CO2 emissions (kt)",
       Cell.str "EN.ATM.CO2E.KT", Cell.num 3, Cell.num 4],
      [Cell.str "Brazil", Cell.str "BRA", Cell.str "CO2 emissions (kt)",
       Cell.str "EN.ATM.CO2E.KT", Cell.num 5, Cell.num 6]] }

/-- A raw table in the spec's sample shape: metadata plus 10 year columns,
with CO2 rows for India and Nigeria, one other indicator for India, and one
row for a country outside the selection. -/
def sampleRaw : DataFrame :=
  { cols := [Cell.str "Country Name", Cell.str "Country Code", Cell.str "Indicator Name",
      Cell.str "Indicator Code", Cell.str "2010", Cell.str "2011", Cell.str "2012",
      Cell.str "2013", Cell.str "2014", Cell.str "2015", Cell.str "2016", Cell.str "2017",
      Cell.str "2018", Cell.str "2019"],
    rows := [
      [Cell.str "India", Cell.str "IND", Cell.str "CO2 emissions (kt)",
       Cell.str "EN.ATM.CO2E.KT", Cell.num 1, Cell.num 2, Cell.num 3, Cell.num 4,
       Cell.num 5, Cell.num 6, Cell.num 7, Cell.num 8, Cell.num 9, Cell.num 10],
      [Cell.str "Nigeria", Cell.str "NGA", Cell.str "CO2 emissions (kt)",
       Cell.str "EN.ATM.CO2E.KT", Cell.num 11, Cell.num 12, Cell.num 13, Cell.num 14,
       Cell.num 15, Cell.num 16, Cell.num 17, Cell.num 18, Cell.num 19, Cell.num 20],
      [Cell.str "India", Cell.str "IND", Cell.str "Urban population growth (annual %)",
       Cell.str "SP.URB.GROW", Cell.num 21, Cell.num 22, Cell.num 23, Cell.num 24,
       Cell.num 25, Cell.num 26, Cell.num 27, Cell.num 28, Cell.num 29, Cell.num 30],
      [Cell.str "Brazil", Cell.str "BRA", Cell.str "CO2 emissions (kt)",
       Cell.str "EN.ATM.CO2E.KT", Cell.num 31, Cell.num 32, Cell.num 33, Cell.num 34,
       Cell.num 35, Cell.num 36, Cell.num 37, Cell.num 38, Cell.num 39, Cell.num 40]] }

/-- A raw table with only three columns, so that the bar-chart slices
clamp. -/
def tinyRaw : DataFrame :=
  { cols := [Cell.str "Country Name", Cell.str "Indicator Name", Cell.str "2000"],
    rows := [[Cell.str "India", Cell.str "CO2 emissions (kt)", Cell.num 1]] }

/-- A raw table with seven columns (metadata plus three years), below the
eight columns the `-8:-2` window needs. -/
def sevenRaw : DataFrame :=
  { cols := [Cell.str "Country Name", Cell.str "Country Code", Cell.str "Indicator Name",
      Cell.str "Indicator Code", Cell.str "2000", Cell.str "2001", Cell.str "2002"],
    rows := [
      [Cell.str "India", Cell.str "IND", Cell.str "CO2 emissions (kt)",
       Cell.str "EN.ATM.CO2E.KT", Cell.num 1, Cell.num 2, Cell.num 3]] }

/-- A raw table whose one indicator is constant over the years, so that its
series has zero variance. -/
def constRaw : DataFrame :=
  { cols := [Cell.str "Country Name", Cell.str "Country Code", Cell.str "Indicator Name",
      Cell.str "Indicator Code", Cell.str "2000", Cell.str "2001"],
    rows := [
      [Cell.str "India", Cell.str "IND", Cell.str "Agricultural land (sq. km)",
       Cell.str "AG.LND.AGRI.K2", Cell.num 5, Cell.num 5]] }

/-! ### Claim C1 -/

/-- Claim C1: dropping columns with any missing value keeps exactly the
columns without missing values: no surviving cell is missing, and the
surviving columns are precisely those positions at which every row of the
current subset reports a value (the intersection over the rows), in their
original order and with their original labels. -/
theorem dropna_cols_complete_and_exact (df : DataFrame) :
    (∀ r ∈ (dropna_cols df).rows, ∀ c ∈ r, c ≠ Cell.na)
    ∧ (dropna_cols df).cols
        = ((List.range df.cols.length).filter
            (fun k => decide (∀ r ∈ df.rows, cellAt r k ≠ Cell.na))).map
          (fun k => df.cols.getD k Cell.na) := by
  refine ⟨dropna_cols_no_na df, ?_⟩
  rw [dropna_cols, selectCols, keptIdxs]
  simp only
  congr 1
  apply List.filter_congr
  intro k _
  rw [Bool.eq_iff_iff]
  simp [colHasNa, List.any_eq_true]

/-- Witness for C1 on a concrete table. -/
theorem dropna_cols_complete_and_exact_witness :
    (∀ r ∈ (dropna_cols smallRaw).rows, ∀ c ∈ r, c ≠ Cell.na)
    ∧ (dropna_cols smallRaw).cols
        = ((List.range smallRaw.cols.length).filter
            (fun k => decide (∀ r ∈ smallRaw.rows, cellAt r k ≠ Cell.na))).map
          (fun k => smallRaw.cols.getD k Cell.na) :=
  dropna_cols_complete_and_exact smallRaw

/-! ### Claim C5 -/

/-- Claim C5, as stated, is false: the full cleaning step of `read_data`
(transpose, reheader, drop metadata rows, rename, drop missing-value
columns) is not idempotent — applied to `mediumRaw` twice it yields a
different table from applying it once. The once-cleaned table has four
columns (`Year` and three countries) and two year rows; the second pass
re-transposes it into a four-row frame — so `drop(index=[0, 1, 2, 3])`
succeeds in pandas too — and discards all of its data as metadata rows,
leaving a table with columns `Year, 2000, 2001` and no rows. -/
theorem read_data_clean_not_idempotent :
    read_data_clean (read_data_clean mediumRaw) ≠ read_data_clean mediumRaw := by
  decide

/-- Claim C5, amended: the missing-value-column-dropping part of the cleaning
step is idempotent — dropping missing-value columns twice equals dropping
them once, and in particular the cleaned table produced by `read_data` is
left unchanged by dropping missing-value columns again. The full pipeline
including the transpose is not idempotent. -/
theorem clean_drop_missing_idem (df : DataFrame) :
    dropna_cols (dropna_cols df) = dropna_cols df
    ∧ dropna_cols (read_data_clean df) = read_data_clean df := by
  refine ⟨dropna_cols_idem df, ?_⟩
  rw [read_data_clean]
  exact dropna_cols_idem _

/-- Witness for the amended C5 on a concrete table. -/
theorem clean_drop_missing_idem_witness :
    dropna_cols (dropna_cols smallRaw) = dropna_cols smallRaw
    ∧ dropna_cols (read_data_clean smallRaw) = read_data_clean smallRaw :=
  clean_drop_missing_idem smallRaw

/-! ### Claim C2 -/

/-- Claim C2, as stated, is false: the bar-chart windowing does not keep
exactly 6 columns for every filtered and cleaned table. On `tinyRaw` the
cleaned filtered table has only 3 columns and the `index = 1` window keeps
all 3 of them. -/
theorem barWindow_not_always_six :
    ¬ ((barWindow tinyRaw ["India"] ["X", "CO2 emissions (kt)"] 1).cols.length = 6) := by
  decide

/-- Claim C2, amended: for every filtered and cleaned table with at least 6
columns, `index = 1` keeps exactly the last 6 columns; with at least 8
columns, any other index keeps exactly the 6 columns from position `-8` to
`-2` (excluding the final column). -/
theorem barWindow_six (df : DataFrame) (cl il : List String) (index : Nat) :
    (index = 1 → 6 ≤ (df_pop1 df cl il index).cols.length →
      (barWindow df cl il index).cols
        = (df_pop1 df cl il index).cols.drop ((df_pop1 df cl il index).cols.length - 6)
      ∧ (barWindow df cl il index).cols.length = 6)
    ∧ (index ≠ 1 → 8 ≤ (df_pop1 df cl il index).cols.length →
      (barWindow df cl il index).cols
        = ((df_pop1 df cl il index).cols.drop
            ((df_pop1 df cl il index).cols.length - 8)).take 6
      ∧ (barWindow df cl il index).cols.length = 6) := by
  constructor
  · intro h1 h6
    simp only [barWindow, if_pos h1]
    refine ⟨ilocCols_m6_cols _ h6, ?_⟩
    rw [ilocCols_m6_cols _ h6]
    simp
    omega
  · intro h1 h8
    simp only [barWindow, if_neg h1]
    refine ⟨ilocCols_m8m2_cols _ h8, ?_⟩
    rw [ilocCols_m8m2_cols _ h8]
    simp
    omega

/-- Witness for the amended C2 on `sampleRaw`, covering both branches: with
`index = 1` the last 6 of the 14 surviving columns are kept; with
`index = 0` the 6 columns from position `-8` to `-2` are kept. -/
theorem barWindow_six_witness :
    ((barWindow sampleRaw ["India", "Nigeria"] ["X", "CO2 emissions (kt)"] 1).cols
        = (df_pop1 sampleRaw ["India", "Nigeria"] ["X", "CO2 emissions (kt)"] 1).cols.drop
            ((df_pop1 sampleRaw ["India", "Nigeria"] ["X", "CO2 emissions (kt)"] 1).cols.length - 6)
      ∧ (barWindow sampleRaw ["India", "Nigeria"] ["X", "CO2 emissions (kt)"] 1).cols.length = 6)
    ∧ ((barWindow sampleRaw ["India", "Nigeria"] ["CO2 emissions (kt)"] 0).cols
        = ((df_pop1 sampleRaw ["India", "Nigeria"] ["CO2 emissions (kt)"] 0).cols.drop
            ((df_pop1 sampleRaw ["India", "Nigeria"] ["CO2 emissions (kt)"] 0).cols.length - 8)).take 6
      ∧ (barWindow sampleRaw ["India", "Nigeria"] ["CO2 emissions (kt)"] 0).cols.length = 6) :=
  ⟨(barWindow_six sampleRaw ["India", "Nigeria"] ["X", "CO2 emissions (kt)"] 1).1
      rfl (by decide),
   (barWindow_six sampleRaw ["India", "Nigeria"] ["CO2 emissions (kt)"] 0).2
      (by decide) (by decide)⟩

/-! ### Claim C6 -/

/-- Claim C6: `Statistics_line` always slices the cleaned filtered table with
the `-8:-2` window, for every value of the index argument — in particular
also for `index = 1`, where `Statistics` would instead keep the last 6
columns. With at least 8 surviving columns this keeps exactly the 6 columns
from position `-8` to `-2`. -/
theorem lineWindow_always_m8m2 (df : DataFrame) (cl il : List String) (index : Nat)
    (h : 8 ≤ (df_pop1 df cl il index).cols.length) :
    lineWindow df cl il index = ilocCols (df_pop1 df cl il index) (-8) (some (-2))
    ∧ (lineWindow df cl il index).cols
        = ((df_pop1 df cl il index).cols.drop
            ((df_pop1 df cl il index).cols.length - 8)).take 6
    ∧ (lineWindow df cl il index).cols.length = 6 := by
  refine ⟨rfl, ilocCols_m8m2_cols _ h, ?_⟩
  rw [lineWindow, ilocCols_m8m2_cols _ h]
  simp
  omega

/-- Witness for C6 on `sampleRaw` at `index = 1` (the index at which the bar
chart would use a different window). -/
theorem lineWindow_always_m8m2_witness :
    lineWindow sampleRaw ["India", "Nigeria"] ["X", "CO2 emissions (kt)"] 1
      = ilocCols (df_pop1 sampleRaw ["India", "Nigeria"] ["X", "CO2 emissions (kt)"] 1)
          (-8) (some (-2))
    ∧ (lineWindow sampleRaw ["India", "Nigeria"] ["X", "CO2 emissions (kt)"] 1).cols
        = ((df_pop1 sampleRaw ["India", "Nigeria"] ["X", "CO2 emissions (kt)"] 1).cols.drop
            ((df_pop1 sampleRaw ["India", "Nigeria"] ["X", "CO2 emissions (kt)"] 1).cols.length - 8)).take 6
    ∧ (lineWindow sampleRaw ["India", "Nigeria"] ["X", "CO2 emissions (kt)"] 1).cols.length = 6 :=
  lineWindow_always_m8m2 sampleRaw ["India", "Nigeria"] ["X", "CO2 emissions (kt)"] 1
    (by decide)

/-! ### Claim C10 -/

/-- Claim C10: with fewer than 8 surviving columns the `-8:-2` slice of
`Statistics` and `Statistics_line` does not fail but clamps at position 0: it
keeps all but the last two columns (including any leading metadata columns),
which is fewer than 6 — possibly zero — columns; and with fewer than 6
columns the `index = 1` last-6 slice likewise clamps and keeps the whole
table. -/
theorem windows_clamped (df : DataFrame) (cl il : List String) (index : Nat)
    (h : (df_pop1 df cl il index).cols.length < 8) :
    (lineWindow df cl il index).cols
      = (df_pop1 df cl il index).cols.take ((df_pop1 df cl il index).cols.length - 2)
    ∧ (lineWindow df cl il index).cols.length < 6
    ∧ (index ≠ 1 → barWindow df cl il index = lineWindow df cl il index)
    ∧ (index = 1 → (df_pop1 df cl il index).cols.length < 6 →
        (barWindow df cl il index).cols = (df_pop1 df cl il index).cols) := by
  refine ⟨ilocCols_m8m2_cols_small _ h, ?_, ?_, ?_⟩
  · rw [lineWindow, ilocCols_m8m2_cols_small _ h]
    simp
    omega
  · intro hne
    simp only [barWindow, if_neg hne, lineWindow]
  · intro h1 h6
    simp only [barWindow, if_pos h1]
    exact ilocCols_m6_cols_small _ h6

/-- Witness for C10 on `sevenRaw` (7 surviving columns): the `-8:-2` window
clamps to the first 5 columns — metadata included — and on `tinyRaw`
(3 surviving columns, `index = 1`) the last-6 window keeps the whole
table. -/
theorem windows_clamped_witness :
    ((lineWindow sevenRaw ["India"] ["CO2 emissions (kt)"] 0).cols
      = (df_pop1 sevenRaw ["India"] ["CO2 emissions (kt)"] 0).cols.take
          ((df_pop1 sevenRaw ["India"] ["CO2 emissions (kt)"] 0).cols.length - 2)
    ∧ (lineWindow sevenRaw ["India"] ["CO2 emissions (kt)"] 0).cols.length < 6
    ∧ (0 ≠ 1 → barWindow sevenRaw ["India"] ["CO2 emissions (kt)"] 0
        = lineWindow sevenRaw ["India"] ["CO2 emissions (kt)"] 0)
    ∧ (0 = 1 → (df_pop1 sevenRaw ["India"] ["CO2 emissions (kt)"] 0).cols.length < 6 →
        (barWindow sevenRaw ["India"] ["CO2 emissions (kt)"] 0).cols
          = (df_pop1 sevenRaw ["India"] ["CO2 emissions (kt)"] 0).cols))
    ∧ (barWindow tinyRaw ["India"] ["X", "CO2 emissions (kt)"] 1).cols
        = (df_pop1 tinyRaw ["India"] ["X", "CO2 emissions (kt)"] 1).cols :=
  ⟨windows_clamped sevenRaw ["India"] ["CO2 emissions (kt)"] 0 (by decide),
   (windows_clamped tinyRaw ["India"] ["X", "CO2 emissions (kt)"] 1 (by decide)).2.2.2
     rfl (by decide)⟩

/-! ### Claim C3 -/

/-- With a true conjunct absorbed, filtering twice is filtering once: used to
collapse the `isin` mask followed by the equality mask. -/
theorem bool_and_absorb (a b c : Bool) (h : c = true → b = true) :
    (c && (a && b)) = (a && c) := by
  cases c
  · simp
  · simp [h rfl]

/-- Claim C3: the series `Statistics` and `Statistics_line` build consists
exactly of the rows of the raw table whose `Country Name` is in the selected
country list and whose `Indicator Name` equals the indicator selected by the
index, `indicator_list[index]`. -/
theorem df_pop_exact (df : DataFrame) (cl il : List String) (index : Nat)
    (h : index < il.length) :
    (df_pop df cl il index).rows
      = df.rows.filter (fun r => countryMask df cl r &&
          decide (cellAt r (colIdx df "Indicator Name") = Cell.str (il.getD index ""))) := by
  rw [df_pop, filterRows]
  simp only [df_sub, filterRows, colIdx]
  rw [List.filter_filter]
  apply List.filter_congr
  intro r _
  apply bool_and_absorb
  intro hq
  rw [indicatorMask, List.any_eq_true]
  refine ⟨il.getD index "", ?_, hq⟩
  rw [List.getD_eq_getElem _ _ h]
  exact List.getElem_mem h

/-- Witness for C3: on the sample table with countries India and Nigeria,
indicator `CO2 emissions (kt)` and 10 year columns, the filter keeps exactly
the matching rows — 2 of them. -/
theorem df_pop_exact_witness :
    (df_pop sampleRaw ["India", "Nigeria"] ["CO2 emissions (kt)"] 0).rows
      = sampleRaw.rows.filter (fun r => countryMask sampleRaw ["India", "Nigeria"] r &&
          decide (cellAt r (colIdx sampleRaw "Indicator Name")
            = Cell.str (["CO2 emissions (kt)"].getD 0 "")))
    ∧ (df_pop sampleRaw ["India", "Nigeria"] ["CO2 emissions (kt)"] 0).rows.length = 2 :=
  ⟨df_pop_exact sampleRaw ["India", "Nigeria"] ["CO2 emissions (kt)"] 0 (by decide),
   by decide⟩

/-! ### Claim C9 -/

/-- Claim C9: filtering with countries none of which occur in the data
yields an empty result set, and the boolean-mask selection is total — it
returns the empty row list rather than failing. -/
theorem df_sub_absent_empty (df : DataFrame) (cl il : List String)
    (h : ∀ r ∈ df.rows, ∀ c ∈ cl, cellAt r (colIdx df "Country Name") ≠ Cell.str c) :
    (df_sub df cl il).rows = [] := by
  rw [df_sub, filterRows]
  simp only
  rw [List.filter_eq_nil_iff]
  intro r hr
  simp only [Bool.and_eq_true, not_and]
  intro hcm
  rw [countryMask, List.any_eq_true] at hcm
  obtain ⟨c, hcmem, hceq⟩ := hcm
  exact (h r hr c hcmem (of_decide_eq_true hceq)).elim

/-- Witness for C9: filtering `smallRaw` for a country absent from the data
returns zero rows. -/
theorem df_sub_absent_empty_witness :
    (df_sub smallRaw ["Atlantis"] ["CO2 emissions (kt)"]).rows = [] :=
  df_sub_absent_empty smallRaw ["Atlantis"] ["CO2 emissions (kt)"] (by decide)

/-! ### Claim C8 -/

/-- Claim C8: each operation is a stateless transform of its inputs aside
from rendering: the caller's `df` is unchanged after `Statistics`,
`Statistics_line` and `correlations` (their in-place `set_index`/`drop`
mutations act on the boolean-mask copies only), and `read_data` returns the
raw table unchanged alongside the cleaned table. -/
theorem runs_leave_input_unchanged (df : DataFrame) (cl il : List String) (i : Nat) :
    (read_data df).1 = df ∧ (read_data df).2 = read_data_clean df
    ∧ (StatisticsRun df cl il i).1 = df
    ∧ (Statistics_lineRun df cl il i).1 = df
    ∧ (correlationsRun df cl il i).1 = df :=
  ⟨rfl, rfl, rfl, rfl, rfl⟩

/-! ### Claim C4 -/

/-- Claim C4, as stated, is false: when an indicator's series is constant
over the surviving years its variance is zero, the Pearson denominator
vanishes, and the diagonal entry of the correlation matrix is the degenerate
division (pandas reports `NaN`, the real-valued model yields `0`), not
`1.00`. `constRaw` is such an input. -/
theorem corr_matrix_diag_not_always_one :
    corr_matrix constRaw ["India"] ["Agricultural land (sq. km)"] 0 0 0 ≠ 1 := by
  have hdf : df_temp constRaw ["India"] ["Agricultural land (sq. km)"] 0
      = { cols := [Cell.str "2000", Cell.str "2001"],
          rows := [[Cell.num 5, Cell.num 5]] } := by decide
  have hrow : rowSeries (df_temp constRaw ["India"] ["Agricultural land (sq. km)"] 0) 0
      = [(5 : ℝ), (5 : ℝ)] := by
    rw [rowSeries, hdf]
    norm_num [cellVal]
  have hc : cdot [(5 : ℝ), (5 : ℝ)] [(5 : ℝ), (5 : ℝ)] = 0 := by
    norm_num [cdot, mean]
  rw [corr_matrix, hrow, pearson, hc]
  norm_num

/-- Claim C4, amended: the correlation matrix of `correlations` is always
symmetric — unconditionally, constant series included — and its diagonal
entry for an indicator is `1.00` whenever that indicator's series has
nonzero variance over the observation years (for a zero-variance series the
entry is the degenerate division, `NaN` in pandas). -/
theorem corr_matrix_symm_unit_diag (df : DataFrame) (cl il : List String)
    (index i j : Nat) :
    corr_matrix df cl il index i j = corr_matrix df cl il index j i
    ∧ (cdot (rowSeries (df_temp df cl il index) i)
          (rowSeries (df_temp df cl il index) i) ≠ 0 →
        corr_matrix df cl il index i i = 1) :=
  ⟨pearson_comm _ _, fun h => pearson_self _ h⟩

/-- Witness for the amended C4: on `sampleRaw`, India's CO2 series is
`1, …, 10`, which has nonzero variance, so the matrix is symmetric there and
its diagonal entry is 1. -/
theorem corr_matrix_symm_unit_diag_witness :
    cdot (rowSeries (df_temp sampleRaw ["India", "Nigeria"]
          ["CO2 emissions (kt)", "Urban population growth (annual %)"] 0) 0)
        (rowSeries (df_temp sampleRaw ["India", "Nigeria"]
          ["CO2 emissions (kt)", "Urban population growth (annual %)"] 0) 0) ≠ 0
    ∧ (corr_matrix sampleRaw ["India", "Nigeria"]
          ["CO2 emissions (kt)", "Urban population growth (annual %)"] 0 0 1
        = corr_matrix sampleRaw ["India", "Nigeria"]
            ["CO2 emissions (kt)", "Urban population growth (annual %)"] 0 1 0
       ∧ corr_matrix sampleRaw ["India", "Nigeria"]
            ["CO2 emissions (kt)", "Urban population growth (annual %)"] 0 0 0 = 1) := by
  have hdf : df_temp sampleRaw ["India", "Nigeria"]
        ["CO2 emissions (kt)", "Urban population growth (annual %)"] 0
      = { cols := [Cell.str "2010", Cell.str "2011", Cell.str "2012", Cell.str "2013",
            Cell.str "2014", Cell.str "2015", Cell.str "2016", Cell.str "2017",
            Cell.str "2018", Cell.str "2019"],
          rows := [
            [Cell.num 1, Cell.num 2, Cell.num 3, Cell.num 4, Cell.num 5, Cell.num 6,
             Cell.num 7, Cell.num 8, Cell.num 9, Cell.num 10],
            [Cell.num 21, Cell.num 22, Cell.num 23, Cell.num 24, Cell.num 25, Cell.num 26,
             Cell.num 27, Cell.num 28, Cell.num 29, Cell.num 30]] } := by decide
  have h : cdot (rowSeries (df_temp sampleRaw ["India", "Nigeria"]
          ["CO2 emissions (kt)", "Urban population growth (annual %)"] 0) 0)
        (rowSeries (df_temp sampleRaw ["India", "Nigeria"]
          ["CO2 emissions (kt)", "Urban population growth (annual %)"] 0) 0) ≠ 0 := by
    rw [rowSeries, hdf]
    norm_num [cellVal, cdot, mean]
  exact ⟨h, (corr_matrix_symm_unit_diag sampleRaw ["India", "Nigeria"]
      ["CO2 emissions (kt)", "Urban population growth (annual %)"] 0 0 1).1,
    (corr_matrix_symm_unit_diag sampleRaw ["India", "Nigeria"]
      ["CO2 emissions (kt)", "Urban population growth (annual %)"] 0 0 0).2 h⟩

/-! ### Claim C7 -/

/-- The head of the transposed-and-reindexed row list is the row for the
first original column. -/
theorem headD_map_range_add4 {α : Type} (L : Nat) (f : Nat → α) (d : α) :
    ((List.range (L + 4)).map f).headD d = f 0 := by
  have h4 : L + 4 = (L + 3) + 1 := rfl
  rw [h4, List.range_succ_eq_map]
  simp

/-- Dropping the four leading rows of the transposed table leaves the rows
for the original columns from position 4 on. -/
theorem drop4_map_range_add4 {α : Type} (L : Nat) (f : Nat → α) :
    ((List.range (L + 4)).map f).drop 4 = (List.range L).map (fun k => f (4 + k)) := by
  rw [← List.map_drop]
  have h1 : List.range (L + 4) = [0, 1, 2, 3] ++ List.range' 4 L := by
    rw [List.range_eq_range', ← List.range'_append 0 4 L 1]
    rfl
  rw [h1]
  simp only [List.cons_append, List.nil_append, List.drop_succ_cons, List.drop_zero]
  rw [List.range'_eq_map_range, List.map_map]
  rfl

/-- Reading past the four metadata labels of the raw header reads the year
labels. -/
theorem getD_cons4 (a b c d : Cell) (ys : List Cell) (k : Nat) :
    (a :: b :: c :: d :: ys).getD (4 + k) Cell.na = ys.getD k Cell.na := by
  simp [Nat.add_comm 4 k, List.getD_cons_succ]

/-- Claim C7: on a raw table with the World-Bank header (the four metadata
columns followed by year columns) whose first column holds no literal
`Country Name` entry, `read_data` produces the cleaned table by exactly the
spec's steps — after transposing, promoting the first transposed row (the
country names, headed by the `Country Name` label) to the column header,
dropping the four leading metadata rows, and renaming the `Country Name`
header to `Year`, the columns are `Year` followed by the raw first column
and the rows pair each year label with that year's values, and the result is
that table with every missing-value column dropped. -/
theorem read_data_clean_steps (df : DataFrame) (ys : List Cell)
    (hcols : df.cols = Cell.str "Country Name" :: Cell.str "Country Code" ::
      Cell.str "Indicator Name" :: Cell.str "Indicator Code" :: ys)
    (hcn : Cell.str "Country Name" ∉ colValues df 0) :
    read_data_clean df = dropna_cols
      { cols := Cell.str "Year" :: colValues df 0,
        rows := (List.range ys.length).map
          (fun k => ys.getD k Cell.na :: colValues df (4 + k)) } := by
  have hlen : df.cols.length = ys.length + 4 := by
    rw [hcols]
    simp only [List.length_cons]
  rw [read_data_clean]
  congr 1
  simp only [dfT_reset, setColsFirstRow, dropRows4, renameCountryToYear]
  rw [hlen]
  simp only [DataFrame.mk.injEq]
  constructor
  · rw [headD_map_range_add4]
    rw [show (df.cols.getD 0 Cell.na) = Cell.str "Country Name" by rw [hcols]; rfl]
    rw [List.map_cons, if_pos rfl]
    congr 1
    have hid : ∀ c ∈ colValues df 0,
        (if c = Cell.str "Country Name" then Cell.str "Year" else c) = id c := by
      intro c hc
      rw [id]
      exact if_neg (fun h : c = Cell.str "Country Name" => hcn (h ▸ hc))
    rw [List.map_congr_left hid, List.map_id]
  · rw [drop4_map_range_add4]
    apply List.map_congr_left
    intro k _
    rw [hcols, getD_cons4]

/-- Witness for C7 on `smallRaw`. -/
theorem read_data_clean_steps_witness :
    read_data_clean smallRaw = dropna_cols
      { cols := Cell.str "Year" :: colValues smallRaw 0,
        rows := (List.range ([Cell.str "2000", Cell.str "2001"] : List Cell).length).map
          (fun k => ([Cell.str "2000", Cell.str "2001"] : List Cell).getD k Cell.na
            :: colValues smallRaw (4 + k)) } :=
  read_data_clean_steps smallRaw [Cell.str "2000", Cell.str "2001"] (by decide) (by decide)

end Assignment2
